import Mathlib

/-!
Shallow embedding of the live audio session logic of `src/App.tsx`
(`VoiceChat` and `VisualAssistant` components): session lifecycle,
inbound audio playback scheduling, outbound PCM conversion, transcript
accumulation, and error handling.

Time (the audio clock and segment durations) is modelled with `ℚ`.
Strings, lists and options mirror the JavaScript values directly.
-/

/-- One inbound audio segment as scheduled for playback:
`source.start(nextStartTimeRef.current)` with the duration of the buffer. -/
structure ScheduledSegment where
  startTime : ℚ
  duration : ℚ
deriving Repr, DecidableEq

/-- The fields of a `LiveServerMessage` that the handlers inspect:
`serverContent.inputTranscription`, `serverContent.outputTranscription`,
`serverContent.turnComplete`, the inline audio payload of
`serverContent.modelTurn.parts[0]` (abstracted to its decoded duration),
and `serverContent.interrupted`. -/
structure LiveServerMessage where
  inputTranscription : Option String
  outputTranscription : Option String
  turnComplete : Bool
  audioDuration : Option ℚ
  interrupted : Bool
deriving Repr, DecidableEq

/-- A message carrying no transcription, no audio and no flags. -/
def emptyMsg : LiveServerMessage :=
  { inputTranscription := none, outputTranscription := none,
    turnComplete := false, audioDuration := none, interrupted := false }

/-- A message carrying only an inline audio payload of duration `d`. -/
def audioMsg (d : ℚ) : LiveServerMessage :=
  { inputTranscription := none, outputTranscription := none,
    turnComplete := false, audioDuration := some d, interrupted := false }

/-- A message carrying only the `interrupted` flag. -/
def interruptMsg : LiveServerMessage :=
  { inputTranscription := none, outputTranscription := none,
    turnComplete := false, audioDuration := none, interrupted := true }

/-- State of the `VoiceChat` component: React state (`isLive`,
`transcriptions`, `error`), the refs (`sessionPromiseRef`, `streamRef`,
`sourceRef`, `scriptProcessorRef`, `audioContextRef`,
`outputAudioContextRef`, `nextStartTimeRef`, `playingSources`), the
closure variables `currentInputTranscription` /
`currentOutputTranscription` of `startConversation`, a count of
`getUserMedia` acquisitions, and the log of PCM frames sent with
`sendRealtimeInput`. -/
structure VoiceChatState where
  isLive : Bool
  transcriptions : List (String × String)
  error : Option String
  sessionOpen : Bool
  streamHeld : Bool
  acquisitions : Nat
  sourceConnected : Bool
  scriptProcessorConnected : Bool
  inputCtxOpen : Bool
  outputCtxOpen : Bool
  nextStartTime : ℚ
  playingSources : List ScheduledSegment
  currentInput : String
  currentOutput : String
  outbound : List (List Int)
deriving Repr, DecidableEq

/-- Initial state of the `VoiceChat` component: nothing live, nothing held. -/
def vcInit : VoiceChatState :=
  { isLive := false, transcriptions := [], error := none, sessionOpen := false,
    streamHeld := false, acquisitions := 0, sourceConnected := false,
    scriptProcessorConnected := false, inputCtxOpen := false,
    outputCtxOpen := false, nextStartTime := 0, playingSources := [],
    currentInput := "", currentOutput := "", outbound := [] }

/-- `VoiceChat.stopConversation`: closes the remote session, stops the
capture tracks, disconnects the audio graph nodes, closes both audio
contexts, stops and clears every playing source, resets
`nextStartTimeRef` to `0` and sets `isLive` to `false`.  It does not
touch `error`, `transcriptions` or the accumulation buffers. -/
def stopConversation (s : VoiceChatState) : VoiceChatState :=
  { s with
    sessionOpen := false
    streamHeld := false
    scriptProcessorConnected := false
    sourceConnected := false
    inputCtxOpen := false
    outputCtxOpen := false
    playingSources := []
    nextStartTime := 0
    isLive := false }

/-- `VoiceChat.startConversation` up to the `ai.live.connect` call, on the
success path: guarded by `if (isLive) return;`, then sets `isLive`,
clears `error` and `transcriptions`, resets both accumulation buffers,
opens the output audio context and stores the session promise. -/
def startConversation (s : VoiceChatState) : VoiceChatState :=
  if s.isLive then s
  else
    { s with isLive := true, error := none, transcriptions := [],
             currentInput := "", currentOutput := "",
             outputCtxOpen := true, sessionOpen := true }

/-- `VoiceChat.startConversation` when the body after the `isLive` guard
throws with message `msg` (e.g. connecting fails): the `catch` block runs
`setError(e.message)` followed by `stopConversation()`. -/
def startConversationFailed (s : VoiceChatState) (msg : String) : VoiceChatState :=
  if s.isLive then s
  else
    stopConversation
      { s with isLive := true, error := some msg, transcriptions := [],
               currentInput := "", currentOutput := "",
               outputCtxOpen := true, sessionOpen := true }

/-- The `onopen` callback of `VoiceChat`: acquires the microphone stream with
`getUserMedia`, opens the input audio context, and connects the media
source and the script processor. -/
def voiceOnopen (s : VoiceChatState) : VoiceChatState :=
  { s with streamHeld := true, acquisitions := s.acquisitions + 1,
           inputCtxOpen := true, sourceConnected := true,
           scriptProcessorConnected := true }

/-- The `onopen` callback of `VoiceChat` when `getUserMedia` rejects
(device or permission failure): the rejection happens at the first
statement of the async callback and nothing catches it — the `catch` in
`startConversation` only sees exceptions thrown inside its own `try`
block, not a rejection inside this later callback.  No error is set, no
teardown runs, and no state changes. -/
def voiceOnopenFailed (s : VoiceChatState) : VoiceChatState := s

/-- The JavaScript `ToInt16` conversion on an integer: reduce modulo `2^16` and
reinterpret the residue as a signed 16-bit value. -/
def toInt16 (n : Int) : Int :=
  if n % 65536 < 32768 then n % 65536 else n % 65536 - 65536

/-- Truncation of a rational toward zero (`Int16Array` element conversion
truncates the float toward zero before taking the residue). -/
def ratTrunc (q : ℚ) : Int := q.num.tdiv (q.den : Int)

/-- One sample of the `onaudioprocess` conversion
`new Int16Array(inputData.map(x => x * 32768))`: scale by `32768`,
truncate toward zero, reduce to a signed 16-bit integer. -/
def sampleToPcm16 (x : ℚ) : Int := toInt16 (ratTrunc (x * 32768))

/-- The `onaudioprocess` callback of `VoiceChat`: converts the captured frame
samplewise to 16-bit PCM and, when the session promise is present, sends
exactly that one frame with `sendRealtimeInput`. -/
def voiceOnaudioprocess (s : VoiceChatState) (frame : List ℚ) : VoiceChatState :=
  if s.sessionOpen then
    { s with outbound := s.outbound ++ [frame.map sampleToPcm16] }
  else s

/-- First part of the `onmessage` callback of `VoiceChat`: append any
`inputTranscription` / `outputTranscription` fragments to the buffers,
then on `turnComplete` append the accumulated pair to `transcriptions`
and reset both buffers to the empty string. -/
def stepTranscripts (s : VoiceChatState) (m : LiveServerMessage) : VoiceChatState :=
  let s1 := match m.inputTranscription with
    | some frag => { s with currentInput := s.currentInput ++ frag }
    | none => s
  let s2 := match m.outputTranscription with
    | some frag => { s1 with currentOutput := s1.currentOutput ++ frag }
    | none => s1
  if m.turnComplete then
    { s2 with transcriptions := s2.transcriptions ++ [(s2.currentInput, s2.currentOutput)],
              currentInput := "", currentOutput := "" }
  else s2

/-- Second part of the `onmessage` callback of `VoiceChat`: when the message carries an
inline audio payload and the output context exists, schedule it at
`max(nextStartTimeRef.current, ctx.currentTime)` and advance
`nextStartTimeRef` by the duration of the buffer.  `now` is `ctx.currentTime`
at the moment the message is handled. -/
def stepAudio (now : ℚ) (s : VoiceChatState) (m : LiveServerMessage) : VoiceChatState :=
  match m.audioDuration with
  | some d =>
    if s.outputCtxOpen then
      { s with nextStartTime := max s.nextStartTime now + d,
               playingSources := s.playingSources ++ [⟨max s.nextStartTime now, d⟩] }
    else s
  | none => s

/-- Third part of the `onmessage` callback of `VoiceChat`: on `interrupted`, stop every
playing source, clear the set and reset `nextStartTimeRef` to `0`. -/
def stepInterrupt (s : VoiceChatState) (m : LiveServerMessage) : VoiceChatState :=
  if m.interrupted then
    { s with playingSources := [], nextStartTime := 0 }
  else s

/-- The `onmessage` callback of `VoiceChat`, in source order: transcription
accumulation, audio scheduling, interruption handling. -/
def voiceOnmessage (now : ℚ) (s : VoiceChatState) (m : LiveServerMessage) : VoiceChatState :=
  stepInterrupt (stepAudio now (stepTranscripts s m) m) m

/-- The `onerror` callback of `VoiceChat`:
`setError` with the formatted message, then `stopConversation()`. -/
def voiceOnerror (s : VoiceChatState) (etype : String) : VoiceChatState :=
  stopConversation { s with error := some ("Live session error: " ++ etype) }

/-- The `onclose` callback of `VoiceChat`: `stopConversation()` alone. -/
def voiceOnclose (s : VoiceChatState) : VoiceChatState :=
  stopConversation s

/-- The state of a freshly started and acknowledged `VoiceChat` session:
`startConversation` followed by the `onopen` callback. -/
def vcLive : VoiceChatState := voiceOnopen (startConversation vcInit)

/-- Deliver a sequence of audio-only messages in arrival order; each pair
is (clock time at handling, decoded duration). -/
def runAudio (s : VoiceChatState) : List (ℚ × ℚ) → VoiceChatState
  | [] => s
  | (t, d) :: rest => runAudio (voiceOnmessage t s (audioMsg d)) rest

/-- Modelled from the spec: "each inbound segment is decoded and scheduled
to start at `max(previous segment end, current clock time)`", starting
from playback offset `next`. -/
def specSchedule (next : ℚ) : List (ℚ × ℚ) → List ScheduledSegment
  | [] => []
  | (t, d) :: rest =>
    let st := max next t
    ⟨st, d⟩ :: specSchedule (st + d) rest

/-- Relation between consecutive (arrival, scheduled segment) pairs: no
overlap, non-decreasing starts, and contiguity whenever the next segment
arrives no later than the end of the previous one. -/
def scheduledRel (p q : (ℚ × ℚ) × ScheduledSegment) : Prop :=
  p.2.startTime + p.2.duration ≤ q.2.startTime ∧
  p.2.startTime ≤ q.2.startTime ∧
  (q.1.1 ≤ p.2.startTime + p.2.duration →
    q.2.startTime = p.2.startTime + p.2.duration)

/-- One item sent by the `VisualAssistant` with `sendRealtimeInput`:
either a PCM audio chunk or a JPEG video frame snapshot. -/
inductive VisualOutbound where
  | audioChunk (pcm : List Int)
  | videoFrame
deriving Repr, DecidableEq

/-- State of the `VisualAssistant` component: React state (`isLive`,
`error`), the refs (`intervalRef`, `sessionPromiseRef`, `streamRef`,
`audioContextRef`, `scriptProcessorRef`), a count of `getUserMedia`
acquisitions, the period of the frame timer in milliseconds, and the log
of items sent with `sendRealtimeInput`. -/
structure VisualState where
  isLive : Bool
  error : Option String
  sessionOpen : Bool
  streamHeld : Bool
  acquisitions : Nat
  scriptProcessorConnected : Bool
  audioCtxOpen : Bool
  intervalActive : Bool
  intervalPeriodMs : Nat
  outbound : List VisualOutbound
deriving Repr, DecidableEq

/-- Initial state of the `VisualAssistant` component. -/
def vaInit : VisualState :=
  { isLive := false, error := none, sessionOpen := false, streamHeld := false,
    acquisitions := 0, scriptProcessorConnected := false, audioCtxOpen := false,
    intervalActive := false, intervalPeriodMs := 0, outbound := [] }

/-- `VisualAssistant.stopSession`: clears the frame interval, closes the
remote session, stops the capture tracks, disconnects the script
processor, closes the audio context and sets `isLive` to `false`. -/
def visualStopSession (s : VisualState) : VisualState :=
  { s with intervalActive := false, sessionOpen := false, streamHeld := false,
           scriptProcessorConnected := false, audioCtxOpen := false,
           isLive := false }

/-- `VisualAssistant.startSession` on the success path: sets `isLive`,
clears `error`, acquires the camera/microphone stream with `getUserMedia`
(there is no lifecycle-state guard in its body) and stores the session
promise. -/
def visualStartSession (s : VisualState) : VisualState :=
  { s with isLive := true, error := none, streamHeld := true,
           acquisitions := s.acquisitions + 1, sessionOpen := true }

/-- The `onopen` callback of `VisualAssistant`: opens the audio context,
connects the script processor, and starts the frame timer with
`window.setInterval(..., 1000)`. -/
def visualOnopen (s : VisualState) : VisualState :=
  { s with audioCtxOpen := true, scriptProcessorConnected := true,
           intervalActive := true, intervalPeriodMs := 1000 }

/-- The `onmessage` callback of `VisualAssistant`, verbatim
`(msg) => { /* Audio output not handled in this simplified example */ }`. -/
def visualOnmessage (s : VisualState) (_ : LiveServerMessage) : VisualState := s

/-- The `onaudioprocess` callback of `VisualAssistant`: converts the captured
frame samplewise to 16-bit PCM and, when the session promise is present,
sends exactly that one chunk with `sendRealtimeInput`. -/
def visualOnaudioprocess (s : VisualState) (frame : List ℚ) : VisualState :=
  if s.sessionOpen then
    { s with outbound := s.outbound ++ [.audioChunk (frame.map sampleToPcm16)] }
  else s

/-- One firing of the `VisualAssistant` frame interval: snapshot the video
element to the canvas and, when the session promise is present, send the
JPEG frame with `sendRealtimeInput`. -/
def visualFrameTick (s : VisualState) : VisualState :=
  if s.sessionOpen then
    { s with outbound := s.outbound ++ [.videoFrame] }
  else s

/-- The `onerror` callback of `VisualAssistant`: `setError(e.type)`, then
`stopSession()`. -/
def visualOnerror (s : VisualState) (etype : String) : VisualState :=
  visualStopSession { s with error := some etype }

/-- The `onclose` callback of `VisualAssistant`: `stopSession` alone. -/
def visualOnclose (s : VisualState) : VisualState :=
  visualStopSession s

/-- The state of a freshly started and acknowledged `VisualAssistant`
session: `startSession` followed by the `onopen` callback. -/
def vaLive : VisualState := visualOnopen (visualStartSession vaInit)

/-! ## Helper lemmas -/

/-- Handling an audio-only message while the output context is open
appends one segment scheduled at `max nextStartTime now` and advances the
playback offset by its duration. -/
lemma voiceOnmessage_audio (t d : ℚ) (s : VoiceChatState) (h : s.outputCtxOpen = true) :
    voiceOnmessage t s (audioMsg d) =
      { s with nextStartTime := max s.nextStartTime t + d,
               playingSources := s.playingSources ++ [⟨max s.nextStartTime t, d⟩] } := by
  simp [voiceOnmessage, stepTranscripts, stepAudio, stepInterrupt, audioMsg, h]

/-- Delivering a sequence of audio-only messages appends exactly the
segments produced by the spec scheduling rule, starting from the current
playback offset. -/
lemma runAudio_playingSources (arr : List (ℚ × ℚ)) :
    ∀ s : VoiceChatState, s.outputCtxOpen = true →
      (runAudio s arr).playingSources =
        s.playingSources ++ specSchedule s.nextStartTime arr := by
  induction arr with
  | nil => intro s _; simp [runAudio, specSchedule]
  | cons p rest ih =>
    intro s h
    obtain ⟨t, d⟩ := p
    rw [runAudio, voiceOnmessage_audio t d s h, ih _ (by simp [h])]
    simp [specSchedule]

/-- Consecutive segments produced by the spec scheduling rule never
overlap, have non-decreasing starts, and are contiguous whenever the next
segment arrives no later than the end of the previous one. -/
lemma specSchedule_zip_chain (arr : List (ℚ × ℚ)) :
    ∀ next : ℚ, (∀ p ∈ arr, 0 ≤ p.2) →
      List.Chain' scheduledRel (arr.zip (specSchedule next arr)) := by
  induction arr with
  | nil => intro next _; simp [specSchedule]
  | cons p rest ih =>
    intro next h
    obtain ⟨t, d⟩ := p
    have hd : 0 ≤ d := h (t, d) (by simp)
    cases rest with
    | nil => simp [specSchedule]
    | cons q rest2 =>
      obtain ⟨t', d'⟩ := q
      have hchain := ih (max next t + d) (fun p hp => h p (List.mem_cons_of_mem _ hp))
      simp only [specSchedule] at hchain ⊢
      simp only [List.zip_cons_cons, List.chain'_cons] at hchain ⊢
      refine ⟨⟨le_max_left _ _, ?_, fun hle => max_eq_left hle⟩, hchain⟩
      exact le_trans (le_add_of_nonneg_right hd) (le_max_left _ _)

/-- The audio-scheduling part of `onmessage` does not touch the
transcript or the accumulation buffers. -/
lemma stepAudio_fields (now : ℚ) (s : VoiceChatState) (m : LiveServerMessage) :
    (stepAudio now s m).transcriptions = s.transcriptions ∧
    (stepAudio now s m).currentInput = s.currentInput ∧
    (stepAudio now s m).currentOutput = s.currentOutput := by
  cases hm : m.audioDuration <;> by_cases hc : s.outputCtxOpen <;>
    simp [stepAudio, hm, hc]

/-- The interruption part of `onmessage` does not touch the transcript or
the accumulation buffers. -/
lemma stepInterrupt_fields (s : VoiceChatState) (m : LiveServerMessage) :
    (stepInterrupt s m).transcriptions = s.transcriptions ∧
    (stepInterrupt s m).currentInput = s.currentInput ∧
    (stepInterrupt s m).currentOutput = s.currentOutput := by
  cases hm : m.interrupted <;> simp [stepInterrupt, hm]

/-- Characterisation of the transcript after one `onmessage`: unchanged
unless the message carries `turnComplete`, in which case exactly the
accumulated pair (including the fragments of this very message) is
appended. -/
lemma voiceOnmessage_transcriptions (now : ℚ) (s : VoiceChatState) (m : LiveServerMessage) :
    (voiceOnmessage now s m).transcriptions =
      (if m.turnComplete then
        s.transcriptions ++
          [(s.currentInput ++ m.inputTranscription.getD "",
            s.currentOutput ++ m.outputTranscription.getD "")]
      else s.transcriptions) := by
  rw [voiceOnmessage, (stepInterrupt_fields _ _).1, (stepAudio_fields _ _ _).1]
  cases hi : m.inputTranscription <;> cases ho : m.outputTranscription <;>
    cases ht : m.turnComplete <;> simp [stepTranscripts, hi, ho, ht]

/-- After a `turnComplete` message both accumulation buffers are empty. -/
lemma voiceOnmessage_buffers (now : ℚ) (s : VoiceChatState) (m : LiveServerMessage)
    (h : m.turnComplete = true) :
    (voiceOnmessage now s m).currentInput = "" ∧
    (voiceOnmessage now s m).currentOutput = "" := by
  rw [voiceOnmessage]
  rw [(stepInterrupt_fields _ _).2.1, (stepAudio_fields _ _ _).2.1,
    (stepInterrupt_fields _ _).2.2, (stepAudio_fields _ _ _).2.2]
  cases hi : m.inputTranscription <;> cases ho : m.outputTranscription <;>
    simp [stepTranscripts, hi, ho, h]

/-- `toInt16` always lands in the signed 16-bit range. -/
lemma toInt16_bounds (n : Int) : -32768 ≤ toInt16 n ∧ toInt16 n ≤ 32767 := by
  have h0 : 0 ≤ n % 65536 := Int.emod_nonneg n (by norm_num)
  have h1 : n % 65536 < 65536 := Int.emod_lt_of_pos n (by norm_num)
  unfold toInt16
  split <;> omega

/-! ## Claims -/

/-- Claim C1, counterexample: two inbound segments of duration `1` handled
at clock times `0` and `5` are scheduled at starts `0` and `5`, while the
first segment ends at `0 + 1`; the start of the second segment does not
equal the end of the first, so playback is not always contiguous. -/
theorem playback_schedule_gap_cex :
    (runAudio vcLive [((0:ℚ), 1), ((5:ℚ), 1)]).playingSources =
      [⟨0, 1⟩, ⟨5, 1⟩] ∧ (5:ℚ) ≠ 0 + 1 := by
  constructor
  · norm_num [runAudio, vcLive, vcInit, voiceOnopen, startConversation,
      voiceOnmessage, stepTranscripts, stepAudio, stepInterrupt, audioMsg]
  · norm_num

/-- Claim C1, amended: in an open live voice session every inbound audio
segment is scheduled to start at `max(previous segment end, current clock
time)` (the playback list equals `specSchedule` exactly), and for
nonnegative durations consecutive segments never overlap, have
non-decreasing start times, and a segment arriving no later than the end
of the previous one starts exactly at that end; a segment arriving after
that end starts at its own arrival time instead, so the unconditional
"start equals previous end" of the original claim does not hold. -/
theorem playback_schedule_follows_max_rule (arrivals : List (ℚ × ℚ))
    (h : ∀ p ∈ arrivals, 0 ≤ p.2) :
    (runAudio vcLive arrivals).playingSources = specSchedule 0 arrivals ∧
    List.Chain' scheduledRel
      (arrivals.zip (runAudio vcLive arrivals).playingSources) := by
  have hps := runAudio_playingSources arrivals vcLive rfl
  have h0 : (runAudio vcLive arrivals).playingSources = specSchedule 0 arrivals := by
    simpa [vcLive, vcInit, startConversation, voiceOnopen] using hps
  exact ⟨h0, h0 ▸ specSchedule_zip_chain arrivals 0 h⟩

/-- Claim C1, witness: the amended scheduling theorem applied to the
concrete arrival sequence `[(0, 2), (1, 3)]`. -/
theorem playback_schedule_follows_max_rule_witness :
    (∀ p ∈ [((0:ℚ), (2:ℚ)), ((1:ℚ), (3:ℚ))], 0 ≤ p.2) ∧
    ((runAudio vcLive [((0:ℚ), (2:ℚ)), ((1:ℚ), (3:ℚ))]).playingSources =
        specSchedule 0 [((0:ℚ), (2:ℚ)), ((1:ℚ), (3:ℚ))] ∧
      List.Chain' scheduledRel
        ([((0:ℚ), (2:ℚ)), ((1:ℚ), (3:ℚ))].zip
          (runAudio vcLive [((0:ℚ), (2:ℚ)), ((1:ℚ), (3:ℚ))]).playingSources)) :=
  ⟨by norm_num, playback_schedule_follows_max_rule _ (by norm_num)⟩

/-- Claim C2: `stopConversation` and `stopSession` are idempotent, never
throw (they are total functions), leave the lifecycle at idle, retain no
capture-device handle, cancel all pending playback, and reset the
playback offset to zero; a repeated call changes nothing. -/
theorem stop_is_idempotent_and_releases (s : VoiceChatState) (v : VisualState) :
    stopConversation (stopConversation s) = stopConversation s ∧
    (stopConversation s).isLive = false ∧
    (stopConversation s).streamHeld = false ∧
    (stopConversation s).sessionOpen = false ∧
    (stopConversation s).playingSources = [] ∧
    (stopConversation s).nextStartTime = 0 ∧
    visualStopSession (visualStopSession v) = visualStopSession v ∧
    (visualStopSession v).isLive = false ∧
    (visualStopSession v).streamHeld = false ∧
    (visualStopSession v).sessionOpen = false :=
  ⟨rfl, rfl, rfl, rfl, rfl, rfl, rfl, rfl, rfl, rfl⟩

/-- Claim C3, counterexample: `VisualAssistant.startSession` has no
lifecycle guard; invoked on a live session it acquires a second capture
handle (the acquisition count rises from 1 to 2). -/
theorem visual_start_unguarded_cex :
    vaLive.isLive = true ∧ (visualStartSession vaLive).acquisitions = 2 :=
  ⟨rfl, rfl⟩

/-- Claim C3, amended: `VoiceChat.startConversation` is guarded by the
lifecycle state — while live it is a strict no-op, so no second capture
handle is acquired; `VisualAssistant.startSession` has no such guard and
acquires a fresh capture handle on every call, live or not. -/
theorem start_lifecycle_guard (s : VoiceChatState) (v : VisualState)
    (h : s.isLive = true) :
    startConversation s = s ∧
    (visualStartSession v).acquisitions = v.acquisitions + 1 ∧
    (visualStartSession v).streamHeld = true := by
  refine ⟨by simp [startConversation, h], rfl, rfl⟩

/-- Claim C3, witness: the amended guard theorem applied to the live
`VoiceChat` state and the initial `VisualAssistant` state. -/
theorem start_lifecycle_guard_witness :
    vcLive.isLive = true ∧
    (startConversation vcLive = vcLive ∧
      (visualStartSession vaInit).acquisitions = vaInit.acquisitions + 1 ∧
      (visualStartSession vaInit).streamHeld = true) :=
  ⟨rfl, start_lifecycle_guard vcLive vaInit rfl⟩

/-- Claim C4, counterexample: a remote unexpected close on a live session
tears the session down but surfaces no user-visible error message
(`error` stays `none`), so the four error classes are not handled
identically. -/
theorem onclose_no_error_message_cex :
    (voiceOnclose vcLive).isLive = false ∧
    (voiceOnclose vcLive).error = none :=
  ⟨rfl, rfl⟩

/-- Claim C4, amended: for every session state — live sessions included —
a remote error event stops the session, releases every device and audio
resource and surfaces exactly one error message, while a remote
unexpected close performs the same teardown but surfaces no message; an
inbound message with no audio payload is ignored entirely; a failure
thrown inside the body of `startConversation` (connect setup) is caught,
surfacing one message and stopping everything, but a `getUserMedia`
device/permission rejection inside the async `onopen` callback of
`VoiceChat` is caught by nothing: no message is surfaced and no teardown
runs.  The four error classes are therefore not handled identically. -/
theorem error_classes_handling (s t : VoiceChatState) (e msg : String) (now : ℚ)
    (h : t.isLive = false) :
    (voiceOnerror s e).error = some ("Live session error: " ++ e) ∧
    (voiceOnerror s e).isLive = false ∧
    (voiceOnerror s e).streamHeld = false ∧
    (voiceOnerror s e).inputCtxOpen = false ∧
    (voiceOnerror s e).outputCtxOpen = false ∧
    (voiceOnerror s e).playingSources = [] ∧
    (voiceOnclose s).isLive = false ∧
    (voiceOnclose s).streamHeld = false ∧
    (voiceOnclose s).error = s.error ∧
    voiceOnmessage now s emptyMsg = s ∧
    voiceOnopenFailed s = s ∧
    (startConversationFailed t msg).error = some msg ∧
    (startConversationFailed t msg).isLive = false ∧
    (startConversationFailed t msg).streamHeld = false := by
  refine ⟨rfl, rfl, rfl, rfl, rfl, rfl, rfl, rfl, rfl, rfl, rfl, ?_, ?_, ?_⟩ <;>
    simp [startConversationFailed, stopConversation, h]

/-- Claim C4, witness: the amended error-handling theorem applied to the
live `VoiceChat` state (for the remote-error, remote-close, empty-message
and `onopen`-failure classes) and the initial state (for the caught start
failure), with concrete error strings. -/
theorem error_classes_handling_witness :
    vcInit.isLive = false ∧
    ((voiceOnerror vcLive "network").error =
        some ("Live session error: " ++ "network") ∧
      (voiceOnerror vcLive "network").isLive = false ∧
      (voiceOnerror vcLive "network").streamHeld = false ∧
      (voiceOnerror vcLive "network").inputCtxOpen = false ∧
      (voiceOnerror vcLive "network").outputCtxOpen = false ∧
      (voiceOnerror vcLive "network").playingSources = [] ∧
      (voiceOnclose vcLive).isLive = false ∧
      (voiceOnclose vcLive).streamHeld = false ∧
      (voiceOnclose vcLive).error = vcLive.error ∧
      voiceOnmessage 0 vcLive emptyMsg = vcLive ∧
      voiceOnopenFailed vcLive = vcLive ∧
      (startConversationFailed vcInit "denied").error = some "denied" ∧
      (startConversationFailed vcInit "denied").isLive = false ∧
      (startConversationFailed vcInit "denied").streamHeld = false) :=
  ⟨rfl, error_classes_handling vcLive vcInit "network" "denied" 0 rfl⟩

/-- Claim C5, counterexample: after an unexpected remote close of a live
session with a scheduled segment, the session is torn down but no error
message is surfaced (`error` stays `none`). -/
theorem remote_close_silent_cex :
    (voiceOnclose (voiceOnmessage 0 vcLive (audioMsg 1))).error = none ∧
    (voiceOnclose (voiceOnmessage 0 vcLive (audioMsg 1))).isLive = false :=
  ⟨rfl, rfl⟩

/-- Claim C5, amended: a remote error event triggers an immediate full
teardown via `stopConversation` (no retry), transitions the session to
idle and surfaces exactly one error message; an unexpected remote close
performs the same teardown via `stopConversation` but surfaces no
message. -/
theorem remote_error_full_teardown (s : VoiceChatState) (e : String) :
    voiceOnerror s e =
      stopConversation { s with error := some ("Live session error: " ++ e) } ∧
    (voiceOnerror s e).isLive = false ∧
    (voiceOnerror s e).error = some ("Live session error: " ++ e) ∧
    (voiceOnerror s e).sessionOpen = false ∧
    (voiceOnerror s e).streamHeld = false ∧
    (voiceOnerror s e).playingSources = [] ∧
    voiceOnclose s = stopConversation s ∧
    (voiceOnclose s).isLive = false ∧
    (voiceOnclose s).error = s.error :=
  ⟨rfl, rfl, rfl, rfl, rfl, rfl, rfl, rfl, rfl⟩

/-- Claim C6: any inbound message carrying the `interrupted` flag clears
the whole playback queue and resets the playback offset to zero,
whatever else the message carries and whatever the session state. -/
theorem interrupted_clears_playback (s : VoiceChatState) (now : ℚ)
    (m : LiveServerMessage) (h : m.interrupted = true) :
    (voiceOnmessage now s m).playingSources = [] ∧
    (voiceOnmessage now s m).nextStartTime = 0 := by
  constructor <;> simp [voiceOnmessage, stepInterrupt, h]

/-- Claim C6, witness: the interruption theorem applied to a live state
that has one scheduled segment pending. -/
theorem interrupted_clears_playback_witness :
    interruptMsg.interrupted = true ∧
    ((voiceOnmessage 0 (voiceOnmessage 0 vcLive (audioMsg 1)) interruptMsg).playingSources = [] ∧
      (voiceOnmessage 0 (voiceOnmessage 0 vcLive (audioMsg 1)) interruptMsg).nextStartTime = 0) :=
  ⟨rfl, interrupted_clears_playback _ 0 interruptMsg rfl⟩

/-- Claim C7: on a `turnComplete` message the transcript gains exactly one
new (user, model) entry — the accumulated buffers extended by the
fragments of that very message — and both accumulation buffers reset to
the empty string. -/
theorem turn_complete_appends_transcript (s : VoiceChatState) (now : ℚ)
    (m : LiveServerMessage) (h : m.turnComplete = true) :
    (voiceOnmessage now s m).transcriptions =
      s.transcriptions ++
        [(s.currentInput ++ m.inputTranscription.getD "",
          s.currentOutput ++ m.outputTranscription.getD "")] ∧
    (voiceOnmessage now s m).currentInput = "" ∧
    (voiceOnmessage now s m).currentOutput = "" := by
  refine ⟨?_, (voiceOnmessage_buffers now s m h).1, (voiceOnmessage_buffers now s m h).2⟩
  rw [voiceOnmessage_transcriptions, if_pos h]

/-- Claim C7, witness: the turn-complete theorem applied to the live
state and a concrete message with transcription fragments. -/
theorem turn_complete_appends_transcript_witness :
    (({ inputTranscription := some "hi", outputTranscription := some "there",
        turnComplete := true, audioDuration := none,
        interrupted := false } : LiveServerMessage)).turnComplete = true ∧
    ((voiceOnmessage 0 vcLive
        { inputTranscription := some "hi", outputTranscription := some "there",
          turnComplete := true, audioDuration := none,
          interrupted := false }).transcriptions =
      vcLive.transcriptions ++
        [(vcLive.currentInput ++ (some "hi").getD "",
          vcLive.currentOutput ++ (some "there").getD "")] ∧
      (voiceOnmessage 0 vcLive
        { inputTranscription := some "hi", outputTranscription := some "there",
          turnComplete := true, audioDuration := none,
          interrupted := false }).currentInput = "" ∧
      (voiceOnmessage 0 vcLive
        { inputTranscription := some "hi", outputTranscription := some "there",
          turnComplete := true, audioDuration := none,
          interrupted := false }).currentOutput = "") :=
  ⟨rfl, turn_complete_appends_transcript vcLive 0 _ rfl⟩

/-- Claim C8: every captured frame is converted samplewise to 16-bit
integer PCM — each sample `x` becomes the signed 16-bit value of
`x * 32768` (truncated, reduced modulo `2^16`) — and exactly that one
frame is pushed to the open session, with no state retained beyond the
sent log; every produced sample lies in the signed 16-bit range. -/
theorem outbound_pcm16_conversion (s : VoiceChatState) (v : VisualState)
    (frame : List ℚ) (hs : s.sessionOpen = true) (hv : v.sessionOpen = true) :
    voiceOnaudioprocess s frame =
      { s with outbound := s.outbound ++ [frame.map sampleToPcm16] } ∧
    visualOnaudioprocess v frame =
      { v with outbound :=
          v.outbound ++ [VisualOutbound.audioChunk (frame.map sampleToPcm16)] } ∧
    ∀ x : ℚ, sampleToPcm16 x = toInt16 (ratTrunc (x * 32768)) ∧
      -32768 ≤ sampleToPcm16 x ∧ sampleToPcm16 x ≤ 32767 := by
  refine ⟨by simp [voiceOnaudioprocess, hs], by simp [visualOnaudioprocess, hv],
    fun x => ⟨rfl, (toInt16_bounds _).1, (toInt16_bounds _).2⟩⟩

/-- Claim C8, witness: the PCM conversion theorem applied to the live
states and the concrete frame `[1/2, -1, 1]`. -/
theorem outbound_pcm16_conversion_witness :
    (vcLive.sessionOpen = true ∧ vaLive.sessionOpen = true) ∧
    (voiceOnaudioprocess vcLive [(1:ℚ)/2, -1, 1] =
      { vcLive with outbound :=
          vcLive.outbound ++ [[(1:ℚ)/2, -1, 1].map sampleToPcm16] } ∧
    visualOnaudioprocess vaLive [(1:ℚ)/2, -1, 1] =
      { vaLive with outbound :=
          vaLive.outbound ++
            [VisualOutbound.audioChunk ([(1:ℚ)/2, -1, 1].map sampleToPcm16)] } ∧
    ∀ x : ℚ, sampleToPcm16 x = toInt16 (ratTrunc (x * 32768)) ∧
      -32768 ≤ sampleToPcm16 x ∧ sampleToPcm16 x ≤ 32767) :=
  ⟨⟨rfl, rfl⟩, outbound_pcm16_conversion vcLive vaLive [(1:ℚ)/2, -1, 1] rfl rfl⟩

/-- Claim C9, counterexample: `startConversation` on an idle panel with a
non-empty transcript resets the transcript to empty, removing entries of
completed turns, so not every operation leaves the transcript unchanged
or appends to it. -/
theorem start_resets_transcript_cex :
    ({ vcInit with transcriptions := [("hi", "there")] } : VoiceChatState).transcriptions ≠ [] ∧
    (startConversation
      { vcInit with transcriptions := [("hi", "there")] }).transcriptions = [] :=
  ⟨by simp, rfl⟩

/-- Claim C9, amended: for every session state — live sessions included —
every handler (`onmessage`, `stopConversation`, `onerror`, `onclose`,
`onopen`, `onaudioprocess`) leaves the transcript unchanged or appends
exactly one entry at the end, so within a session the transcript is
append-only; but `startConversation` on an idle panel resets it to empty
before the new session begins, removing the entries of earlier
sessions. -/
theorem transcript_append_only_within_session (s t : VoiceChatState) (now : ℚ)
    (m : LiveServerMessage) (e : String) (frame : List ℚ)
    (h : t.isLive = false) :
    ((voiceOnmessage now s m).transcriptions = s.transcriptions ∨
      ∃ entry, (voiceOnmessage now s m).transcriptions = s.transcriptions ++ [entry]) ∧
    (stopConversation s).transcriptions = s.transcriptions ∧
    (voiceOnerror s e).transcriptions = s.transcriptions ∧
    (voiceOnclose s).transcriptions = s.transcriptions ∧
    (voiceOnopen s).transcriptions = s.transcriptions ∧
    (voiceOnaudioprocess s frame).transcriptions = s.transcriptions ∧
    (startConversation t).transcriptions = [] := by
  refine ⟨?_, rfl, rfl, rfl, rfl, ?_, ?_⟩
  · rw [voiceOnmessage_transcriptions]
    cases ht : m.turnComplete
    · exact Or.inl (by simp [ht])
    · exact Or.inr ⟨(s.currentInput ++ m.inputTranscription.getD "",
        s.currentOutput ++ m.outputTranscription.getD ""), by simp [ht]⟩
  · cases hc : s.sessionOpen <;> simp [voiceOnaudioprocess, hc]
  · simp [startConversation, h]

/-- Claim C9, witness: the amended append-only theorem applied to the
live session state (for every handler) and to the initial state (for the
reset in `startConversation`), with concrete arguments. -/
theorem transcript_append_only_witness :
    vcInit.isLive = false ∧
    (((voiceOnmessage 0 vcLive emptyMsg).transcriptions = vcLive.transcriptions ∨
      ∃ entry, (voiceOnmessage 0 vcLive emptyMsg).transcriptions =
        vcLive.transcriptions ++ [entry]) ∧
    (stopConversation vcLive).transcriptions = vcLive.transcriptions ∧
    (voiceOnerror vcLive "boom").transcriptions = vcLive.transcriptions ∧
    (voiceOnclose vcLive).transcriptions = vcLive.transcriptions ∧
    (voiceOnopen vcLive).transcriptions = vcLive.transcriptions ∧
    (voiceOnaudioprocess vcLive [0]).transcriptions = vcLive.transcriptions ∧
    (startConversation vcInit).transcriptions = []) :=
  ⟨rfl, transcript_append_only_within_session vcLive vcInit 0 emptyMsg "boom" [0] rfl⟩

/-- Claim C10: the `VisualAssistant` message handler changes no state and
schedules no playback for any inbound message; each firing of the frame
timer on an open session sends exactly one video frame, and the timer set
by `onopen` has a one-second (1000 ms) period. -/
theorem visual_onmessage_inert_frames_sent (s : VisualState)
    (m : LiveServerMessage) (v u : VisualState) (hv : v.sessionOpen = true) :
    visualOnmessage s m = s ∧
    visualFrameTick v = { v with outbound := v.outbound ++ [VisualOutbound.videoFrame] } ∧
    (visualOnopen u).intervalPeriodMs = 1000 ∧
    (visualOnopen u).intervalActive = true := by
  refine ⟨rfl, by simp [visualFrameTick, hv], rfl, rfl⟩

/-- Claim C10, witness: the inert-handler theorem applied to the live
`VisualAssistant` state and a concrete message. -/
theorem visual_onmessage_inert_witness :
    vaLive.sessionOpen = true ∧
    (visualOnmessage vaLive interruptMsg = vaLive ∧
    visualFrameTick vaLive =
      { vaLive with outbound := vaLive.outbound ++ [VisualOutbound.videoFrame] } ∧
    (visualOnopen vaInit).intervalPeriodMs = 1000 ∧
    (visualOnopen vaInit).intervalActive = true) :=
  ⟨rfl, visual_onmessage_inert_frames_sent vaLive interruptMsg vaLive vaInit rfl⟩
